import Mathlib

/-!
Shallow embedding of the Pomodoro timer state machine from
pkg/pomodoro/pomodoro.go (repository xaionaro-go/pomodoro).

Durations and timestamps are modelled as Int nanoseconds, matching the
representation of time.Duration and time.Time in the source. Machine
integer conversions (Go uint) are modelled with an explicit wrap modulo
2 to the 64. The GUI widget fields that the state machine writes
(Description.Text, MinutesText.Text, SecondsText.Text, the gray level of
the Delimiter color) are carried as plain fields of the state. The
ticking goroutine is modelled by a list of live tick tasks together with
the cancellation handle TickerCancel, where cancelling a context removes
the corresponding task (cooperative cancellation abstracted as prompt
exit, as the concurrency model of the spec describes).
-/

/-- Go constant time.Millisecond in nanoseconds. -/
def timeMillisecond : Int := 1000000

/-- Go constant time.Second in nanoseconds. -/
def timeSecond : Int := 1000000000

/-- Go constant time.Minute in nanoseconds. -/
def timeMinute : Int := 60000000000

/-- Conversion of a Go int64 value to uint (64-bit): wrap modulo 2^64. -/
def goUint64 (x : Int) : Nat := (x % (2 ^ 64 : Int)).toNat

/-- Go fmt.Sprintf with verb percent-2-d applied to an unsigned value:
decimal digits, right aligned in a minimum width of 2 by padding with a
space on the left. -/
def sprintf2d (n : Nat) : String :=
  if n < 10 then " " ++ toString n else toString n

/-- Go fmt.Sprintf with verb percent-02-d applied to an unsigned value:
decimal digits, zero padded on the left to a minimum width of 2. -/
def sprintf02d (n : Nat) : String :=
  if n < 10 then "0" ++ toString n else toString n

/-- The r channel of the RGBA expansion of color.Gray with level y:
the 8-bit level replicated into 16 bits, that is y * 257. -/
def grayR (y : Nat) : Nat := y * 257

/-- One ticking goroutine launched by Start: its context id and the
period of its time.Ticker (always one second in the source). -/
structure TickTask where
  id : Nat
  period : Int
deriving DecidableEq, Repr

/-- Cancelling the context with the given id removes the corresponding
ticking task: the tick loop selects on ctx.Done and returns. -/
def cancelTask (i : Nat) (ts : List TickTask) : List TickTask :=
  ts.filter (fun t => t.id != i)

/-- The Pomodoro struct of the source, restricted to the fields the state
machine reads and writes. delimiterY is the gray level of the Delimiter
text color; liveTasks and nextTaskID model the ticking goroutines and the
fresh context ids. -/
structure Pomodoro where
  description : String
  minutesText : String
  secondsText : String
  delimiterY : Nat
  deadline : Int
  nextWorkInterval : Int
  nextRestInterval : Int
  isWork : Bool
  tickerCancel : Option Nat
  liveTasks : List TickTask
  nextTaskID : Nat
deriving DecidableEq, Repr

/-- The biased duration used for display: setTimeLeft first adds a fixed
200 millisecond rounding bias. -/
def biasedTimeLeft (t : Int) : Int := t + 200 * timeMillisecond

/-- The minutes string computed by setTimeLeft: whole minutes of the
biased duration, truncated Go int64 division, converted to uint and
printed with percent-2-d. -/
def displayMinutes (t : Int) : String :=
  sprintf2d (goUint64 ((biasedTimeLeft t).tdiv timeMinute))

/-- The seconds string computed by setTimeLeft: whole seconds of the
remainder of the biased duration modulo one minute (Go truncated modulo),
converted to uint and printed with percent-02-d. -/
def displaySeconds (t : Int) : String :=
  sprintf02d (goUint64 (((biasedTimeLeft t).tmod timeMinute).tdiv timeSecond))

/-- Method setTimeLeft of the source: writes the two formatted components
of the remaining time into MinutesText and SecondsText. -/
def setTimeLeft (t : Int) (p : Pomodoro) : Pomodoro :=
  { p with minutesText := displayMinutes t, secondsText := displaySeconds t }

/-- Exported method SetTimeLeft: takes the lock and calls setTimeLeft. -/
def SetTimeLeft (t : Int) (p : Pomodoro) : Pomodoro := setTimeLeft t p

/-- Method SetNextInterval of the source: stores the duration into the
interval of the current phase (chosen by IsWork), unconditionally sets
Deadline to now plus the duration and displays the duration. -/
def SetNextInterval (now d : Int) (p : Pomodoro) : Pomodoro :=
  let p1 := if p.isWork then { p with nextWorkInterval := d }
            else { p with nextRestInterval := d }
  setTimeLeft d { p1 with deadline := now + d }

/-- Method setIsWork of the source: writes the phase label FOCUS or REST,
displays the configured interval of the selected phase, then records the
phase in IsWork. -/
def setIsWork (w : Bool) (p : Pomodoro) : Pomodoro :=
  let p1 := if w then setTimeLeft p.nextWorkInterval { p with description := "FOCUS" }
            else setTimeLeft p.nextRestInterval { p with description := "REST" }
  { p1 with isWork := w }

/-- Method Start of the source: sets the phase via setIsWork, creates a
fresh cancellable context, cancels any previous ticker context, installs
the new cancel handle, sets Deadline to now plus the configured interval
of the (updated) phase, and launches a goroutine ticking once per second
under the new context. -/
def Start (now : Int) (w : Bool) (p : Pomodoro) : Pomodoro :=
  let p1 := setIsWork w p
  let newId := p1.nextTaskID
  let p2 := match p1.tickerCancel with
    | some old => { p1 with liveTasks := cancelTask old p1.liveTasks }
    | none => p1
  let p3 := { p2 with tickerCancel := some newId, nextTaskID := newId + 1 }
  let p4 := { p3 with
    deadline := now + (if p3.isWork then p3.nextWorkInterval else p3.nextRestInterval) }
  { p4 with liveTasks := { id := newId, period := timeSecond } :: p4.liveTasks }

/-- Method StopTimer of the source: clears the phase label, cancels any
ticker context, clears the cancel handle and resets the delimiter color
to the idle gray level 128. -/
def StopTimer (p : Pomodoro) : Pomodoro :=
  let p1 := { p with description := "" }
  let p2 := match p1.tickerCancel with
    | some old => { p1 with liveTasks := cancelTask old p1.liveTasks }
    | none => p1
  { p2 with tickerCancel := none, delimiterY := 128 }

/-- Method endTimer of the source: cancels the ticker context and clears
the handle when present, optionally fires the alarm goroutine (build flag
audioEnabled), then flips the phase via setIsWork with the negated IsWork.
The Deadline field is not touched. -/
def endTimer (p : Pomodoro) : Pomodoro :=
  let p1 := match p.tickerCancel with
    | some old => { p with liveTasks := cancelTask old p.liveTasks, tickerCancel := none }
    | none => p
  setIsWork (!p1.isWork) p1

/-- Exported method EndTimer: takes the lock and calls endTimer. -/
def EndTimer (p : Pomodoro) : Pomodoro := endTimer p

/-- The blink step at the top of method Tick: the delimiter gray level
becomes dim (22) when the current r channel exceeds 10000, else bright
(128). -/
def blinkDelimiter (p : Pomodoro) : Pomodoro :=
  { p with delimiterY := if grayR p.delimiterY > 10000 then 22 else 128 }

/-- Method Tick of the source: toggles the delimiter gray level, computes
the remaining time until Deadline, and either ends the timer (remaining
non-positive, the expired value is not displayed) or displays the
remaining time. -/
def Tick (now : Int) (p : Pomodoro) : Pomodoro :=
  let p1 := blinkDelimiter p
  let timeLeft := p1.deadline - now
  if timeLeft ≤ 0 then endTimer p1 else setTimeLeft timeLeft p1

/-- The Pomodoro struct as built by the composite literal in New: phase
work, rest interval 15 minutes, every other field at its Go zero value,
and the delimiter created with gray level 128. -/
def initialPomodoro : Pomodoro :=
  { description := ""
    minutesText := ""
    secondsText := ""
    delimiterY := 128
    deadline := 0
    nextWorkInterval := 0
    nextRestInterval := 15 * timeMinute
    isWork := true
    tickerCancel := none
    liveTasks := []
    nextTaskID := 0 }

/-- Function New of the source: builds the struct literal and finishes by
calling SetNextInterval with 60 minutes. -/
def New (now : Int) : Pomodoro :=
  SetNextInterval now (60 * timeMinute) initialPomodoro

/-!
Model of the alarm playback path (playAlarm and the goroutine fired by
endTimer under the build flag audioEnabled). The external collaborators
(the ogg vorbis decoder, the oto audio context and player) are modelled
as an environment recording which of the fallible steps fails and how.
-/

/-- Outcome of oggDecoder.Read in the source: a successful read of n
samples, a read ending in io.EOF after n samples (treated as success by
the source), or a failing read with an error message. -/
inductive ReadOutcome where
  | ok (n : Nat)
  | eof (n : Nat)
  | fail (msg : String)
deriving DecidableEq, Repr

/-- Whether a read outcome is a genuine decode failure (io.EOF is not). -/
def ReadOutcome.isFail : ReadOutcome → Bool
  | ReadOutcome.fail _ => true
  | _ => false

/-- Environment of playAlarm: the behaviour of each fallible external
step. A none error field means the step succeeds. -/
structure AlarmEnv where
  decoderInitError : Option String
  decodeOutcome : ReadOutcome
  otoInitError : Option String
  closeError : Option String
deriving DecidableEq, Repr

/-- Wrap message used when oggvorbis.NewReader fails. -/
def decoderInitMsg : String := "unable to initialize a decoder of the ogg vorbis audio: "

/-- Wrap message used when oggDecoder.Read fails with a non-EOF error. -/
def decodeMsg : String := "unable to decode the ogg vorbis file: "

/-- Wrap message used when oto.NewContext fails. -/
def otoInitMsg : String := "unable to initialize an oto context: "

/-- Wrap message used when player.Close fails. -/
def closeMsg : String := "unable to close the player: "

/-- Wrap message prepended by the endTimer goroutine before logging. -/
def alarmLogMsg : String := "unable to play the alarm sound: "

/-- Method playAlarm of the source: initialize the decoder, read the
samples (io.EOF is not an error), open the oto context, play to
completion and close the player. Each failing step returns the wrapped
error of that step; otherwise the call succeeds. -/
def playAlarm (env : AlarmEnv) : Except String Unit :=
  match env.decoderInitError with
  | some e => Except.error (decoderInitMsg ++ e)
  | none =>
    match env.decodeOutcome with
    | ReadOutcome.fail e => Except.error (decodeMsg ++ e)
    | _ =>
      match env.otoInitError with
      | some e => Except.error (otoInitMsg ++ e)
      | none =>
        match env.closeError with
        | some e => Except.error (closeMsg ++ e)
        | none => Except.ok ()

/-- The build flag audioEnabled of the source (const block at the top of
the file). -/
def audioEnabled : Bool := false

/-- Method endTimer together with the alarm goroutine it fires when the
given enablement flag is set: the resulting timer state, and the log line
produced when playAlarm fails (the error is wrapped once more, logged and
discarded). The flag is a parameter so that both values of the build flag
are covered; the source instantiates it with audioEnabled. -/
def endTimerLogWith (enabled : Bool) (env : AlarmEnv) (p : Pomodoro) :
    Pomodoro × Option String :=
  (endTimer p,
    if enabled then
      match playAlarm env with
      | Except.error e => some (alarmLogMsg ++ e)
      | Except.ok _ => none
    else none)

/-- The endTimer alarm path at the build flag value of the source. -/
def endTimerLog (env : AlarmEnv) (p : Pomodoro) : Pomodoro × Option String :=
  endTimerLogWith audioEnabled env p

/-- Every error of playAlarm is one of the four wrapped step errors (a
successful run satisfies this trivially). -/
def alarmErrorsWrapped (r : Except String Unit) : Prop :=
  match r with
  | Except.ok _ => True
  | Except.error e =>
      ∃ m, e = decoderInitMsg ++ m ∨ e = decodeMsg ++ m
        ∨ e = otoInitMsg ++ m ∨ e = closeMsg ++ m

/-!
Event system: the user-invoked and internal operations that mutate the
shared Pomodoro state, and the run of a sequence of such events from the
state built by New. Tick events are allowed in any state, a superset of
the schedules the ticking goroutines can produce.
-/

/-- One mutation of the shared state: an interval selection, a phase
start, a stop, a tick of the ticking goroutine, or an explicit EndTimer. -/
inductive Event where
  | selectInterval (now d : Int)
  | startTimer (now : Int) (w : Bool)
  | stop
  | tickAt (now : Int)
  | phaseEnd
deriving DecidableEq, Repr

/-- Interpretation of one event as the corresponding source method. -/
def step : Event → Pomodoro → Pomodoro
  | Event.selectInterval now d, p => SetNextInterval now d p
  | Event.startTimer now w, p => Start now w p
  | Event.stop, p => StopTimer p
  | Event.tickAt now, p => Tick now p
  | Event.phaseEnd, p => EndTimer p

/-- Run of a sequence of events. -/
def run : List Event → Pomodoro → Pomodoro
  | [], p => p
  | e :: es, p => run es (step e p)

/-- Ticker invariant: the cancellation handle is present with id i iff
exactly the one-second ticking task with context id i is alive; when the
handle is absent no ticking task is alive. -/
def TickerInv (p : Pomodoro) : Prop :=
  p.liveTasks = match p.tickerCancel with
    | some i => [{ id := i, period := timeSecond }]
    | none => []

/-!
Projection lemmas for the state operations.
-/

@[simp] theorem setTimeLeft_liveTasks (t : Int) (p : Pomodoro) :
    (setTimeLeft t p).liveTasks = p.liveTasks := rfl

@[simp] theorem setTimeLeft_tickerCancel (t : Int) (p : Pomodoro) :
    (setTimeLeft t p).tickerCancel = p.tickerCancel := rfl

@[simp] theorem setTimeLeft_nextTaskID (t : Int) (p : Pomodoro) :
    (setTimeLeft t p).nextTaskID = p.nextTaskID := rfl

@[simp] theorem setTimeLeft_isWork (t : Int) (p : Pomodoro) :
    (setTimeLeft t p).isWork = p.isWork := rfl

@[simp] theorem setTimeLeft_deadline (t : Int) (p : Pomodoro) :
    (setTimeLeft t p).deadline = p.deadline := rfl

@[simp] theorem setTimeLeft_description (t : Int) (p : Pomodoro) :
    (setTimeLeft t p).description = p.description := rfl

@[simp] theorem setTimeLeft_nextWorkInterval (t : Int) (p : Pomodoro) :
    (setTimeLeft t p).nextWorkInterval = p.nextWorkInterval := rfl

@[simp] theorem setTimeLeft_nextRestInterval (t : Int) (p : Pomodoro) :
    (setTimeLeft t p).nextRestInterval = p.nextRestInterval := rfl

@[simp] theorem setTimeLeft_minutesText (t : Int) (p : Pomodoro) :
    (setTimeLeft t p).minutesText = displayMinutes t := rfl

@[simp] theorem setTimeLeft_secondsText (t : Int) (p : Pomodoro) :
    (setTimeLeft t p).secondsText = displaySeconds t := rfl

@[simp] theorem setIsWork_liveTasks (w : Bool) (p : Pomodoro) :
    (setIsWork w p).liveTasks = p.liveTasks := by cases w <;> rfl

@[simp] theorem setIsWork_tickerCancel (w : Bool) (p : Pomodoro) :
    (setIsWork w p).tickerCancel = p.tickerCancel := by cases w <;> rfl

@[simp] theorem setIsWork_nextTaskID (w : Bool) (p : Pomodoro) :
    (setIsWork w p).nextTaskID = p.nextTaskID := by cases w <;> rfl

@[simp] theorem setIsWork_isWork (w : Bool) (p : Pomodoro) :
    (setIsWork w p).isWork = w := by cases w <;> rfl

@[simp] theorem setIsWork_deadline (w : Bool) (p : Pomodoro) :
    (setIsWork w p).deadline = p.deadline := by cases w <;> rfl

@[simp] theorem setIsWork_nextWorkInterval (w : Bool) (p : Pomodoro) :
    (setIsWork w p).nextWorkInterval = p.nextWorkInterval := by cases w <;> rfl

@[simp] theorem setIsWork_nextRestInterval (w : Bool) (p : Pomodoro) :
    (setIsWork w p).nextRestInterval = p.nextRestInterval := by cases w <;> rfl

@[simp] theorem setIsWork_description (w : Bool) (p : Pomodoro) :
    (setIsWork w p).description = (if w then "FOCUS" else "REST") := by
  cases w <;> rfl

@[simp] theorem setIsWork_minutesText (w : Bool) (p : Pomodoro) :
    (setIsWork w p).minutesText
      = displayMinutes (if w then p.nextWorkInterval else p.nextRestInterval) := by
  cases w <;> rfl

@[simp] theorem setIsWork_secondsText (w : Bool) (p : Pomodoro) :
    (setIsWork w p).secondsText
      = displaySeconds (if w then p.nextWorkInterval else p.nextRestInterval) := by
  cases w <;> rfl

@[simp] theorem cancelTask_singleton (i : Nat) (s : Int) :
    cancelTask i [{ id := i, period := s }] = [] := by
  simp [cancelTask]

theorem Start_tickerCancel (now : Int) (w : Bool) (p : Pomodoro) :
    (Start now w p).tickerCancel = some p.nextTaskID := by
  cases hc : p.tickerCancel <;> simp [Start, hc]

theorem Start_liveTasks (now : Int) (w : Bool) (p : Pomodoro) :
    (Start now w p).liveTasks
      = { id := p.nextTaskID, period := timeSecond }
        :: (match p.tickerCancel with
            | some old => cancelTask old p.liveTasks
            | none => p.liveTasks) := by
  cases hc : p.tickerCancel <;> simp [Start, hc]

theorem Start_isWork (now : Int) (w : Bool) (p : Pomodoro) :
    (Start now w p).isWork = w := by
  cases hc : p.tickerCancel <;> simp [Start, hc]

theorem Start_description (now : Int) (w : Bool) (p : Pomodoro) :
    (Start now w p).description = (if w then "FOCUS" else "REST") := by
  cases hc : p.tickerCancel <;> simp [Start, hc]

theorem Start_minutesText (now : Int) (w : Bool) (p : Pomodoro) :
    (Start now w p).minutesText
      = displayMinutes (if w then p.nextWorkInterval else p.nextRestInterval) := by
  cases hc : p.tickerCancel <;> simp [Start, hc]

theorem Start_secondsText (now : Int) (w : Bool) (p : Pomodoro) :
    (Start now w p).secondsText
      = displaySeconds (if w then p.nextWorkInterval else p.nextRestInterval) := by
  cases hc : p.tickerCancel <;> simp [Start, hc]

theorem Start_deadline (now : Int) (w : Bool) (p : Pomodoro) :
    (Start now w p).deadline
      = now + (if w then p.nextWorkInterval else p.nextRestInterval) := by
  cases hc : p.tickerCancel <;> cases w <;> simp [Start, hc]

theorem Start_nextTaskID (now : Int) (w : Bool) (p : Pomodoro) :
    (Start now w p).nextTaskID = p.nextTaskID + 1 := by
  cases hc : p.tickerCancel <;> simp [Start, hc]

/-!
Preservation of the ticker invariant by every event, and hence along
every run from the initial state built by New.
-/

theorem tickerInv_setTimeLeft (t : Int) (p : Pomodoro) (h : TickerInv p) :
    TickerInv (setTimeLeft t p) := by
  unfold TickerInv at h ⊢
  simpa using h

theorem tickerInv_start (now : Int) (w : Bool) (p : Pomodoro) (h : TickerInv p) :
    TickerInv (Start now w p) := by
  unfold TickerInv at h ⊢
  rw [Start_liveTasks, Start_tickerCancel]
  cases hc : p.tickerCancel with
  | none => simp [hc] at h; simp [h]
  | some i => rw [hc] at h; simp [h]

theorem tickerInv_stop (p : Pomodoro) (h : TickerInv p) :
    TickerInv (StopTimer p) := by
  unfold TickerInv at h ⊢
  cases hc : p.tickerCancel with
  | none => simp [hc] at h; simp [StopTimer, hc, h]
  | some i => rw [hc] at h; simp [StopTimer, hc, h]

theorem tickerInv_endTimer (p : Pomodoro) (h : TickerInv p) :
    TickerInv (endTimer p) := by
  unfold TickerInv at h ⊢
  cases hc : p.tickerCancel with
  | none => simp [hc] at h; simp [endTimer, hc, h]
  | some i => rw [hc] at h; simp [endTimer, hc, h]

theorem tickerInv_tick (now : Int) (p : Pomodoro) (h : TickerInv p) :
    TickerInv (Tick now p) := by
  unfold Tick
  dsimp only
  split
  · apply tickerInv_endTimer
    unfold TickerInv at h ⊢
    simpa using h
  · apply tickerInv_setTimeLeft
    unfold TickerInv at h ⊢
    simpa using h

theorem tickerInv_step (e : Event) (p : Pomodoro) (h : TickerInv p) :
    TickerInv (step e p) := by
  cases e with
  | selectInterval now d =>
      unfold TickerInv at h ⊢
      simp [step, SetNextInterval]
      split <;> simpa using h
  | startTimer now w => exact tickerInv_start now w p h
  | stop => exact tickerInv_stop p h
  | tickAt now => exact tickerInv_tick now p h
  | phaseEnd => exact tickerInv_endTimer p h

theorem tickerInv_run (evs : List Event) (p : Pomodoro) (h : TickerInv p) :
    TickerInv (run evs p) := by
  induction evs generalizing p with
  | nil => exact h
  | cons e es ih => exact ih (step e p) (tickerInv_step e p h)

theorem tickerInv_New (now : Int) : TickerInv (New now) := by
  unfold TickerInv New SetNextInterval
  simp [initialPomodoro]

theorem tickerInv_length (p : Pomodoro) (h : TickerInv p) :
    p.liveTasks.length ≤ 1 := by
  unfold TickerInv at h
  cases hc : p.tickerCancel <;> rw [hc] at h <;> simp [h]


/-!
Projection lemmas for blinkDelimiter, endTimer and Tick.
-/

@[simp] theorem blinkDelimiter_deadline (p : Pomodoro) :
    (blinkDelimiter p).deadline = p.deadline := rfl

@[simp] theorem blinkDelimiter_isWork (p : Pomodoro) :
    (blinkDelimiter p).isWork = p.isWork := rfl

@[simp] theorem blinkDelimiter_tickerCancel (p : Pomodoro) :
    (blinkDelimiter p).tickerCancel = p.tickerCancel := rfl

@[simp] theorem blinkDelimiter_liveTasks (p : Pomodoro) :
    (blinkDelimiter p).liveTasks = p.liveTasks := rfl

@[simp] theorem blinkDelimiter_nextWorkInterval (p : Pomodoro) :
    (blinkDelimiter p).nextWorkInterval = p.nextWorkInterval := rfl

@[simp] theorem blinkDelimiter_nextRestInterval (p : Pomodoro) :
    (blinkDelimiter p).nextRestInterval = p.nextRestInterval := rfl

theorem endTimer_isWork (p : Pomodoro) : (endTimer p).isWork = !p.isWork := by
  cases hc : p.tickerCancel <;> simp [endTimer, hc]

theorem endTimer_deadline (p : Pomodoro) : (endTimer p).deadline = p.deadline := by
  cases hc : p.tickerCancel <;> simp [endTimer, hc]

theorem endTimer_tickerCancel (p : Pomodoro) : (endTimer p).tickerCancel = none := by
  cases hc : p.tickerCancel <;> simp [endTimer, hc]

theorem endTimer_nextWorkInterval (p : Pomodoro) :
    (endTimer p).nextWorkInterval = p.nextWorkInterval := by
  cases hc : p.tickerCancel <;> simp [endTimer, hc]

theorem endTimer_nextRestInterval (p : Pomodoro) :
    (endTimer p).nextRestInterval = p.nextRestInterval := by
  cases hc : p.tickerCancel <;> simp [endTimer, hc]

theorem endTimer_description (p : Pomodoro) :
    (endTimer p).description = (if p.isWork then "REST" else "FOCUS") := by
  cases hc : p.tickerCancel <;> cases hw : p.isWork <;> simp [endTimer, hc, hw]

theorem endTimer_minutesText (p : Pomodoro) :
    (endTimer p).minutesText
      = displayMinutes (if p.isWork then p.nextRestInterval else p.nextWorkInterval) := by
  cases hc : p.tickerCancel <;> cases hw : p.isWork <;> simp [endTimer, hc, hw]

theorem endTimer_secondsText (p : Pomodoro) :
    (endTimer p).secondsText
      = displaySeconds (if p.isWork then p.nextRestInterval else p.nextWorkInterval) := by
  cases hc : p.tickerCancel <;> cases hw : p.isWork <;> simp [endTimer, hc, hw]

theorem endTimer_liveTasks (p : Pomodoro) :
    (endTimer p).liveTasks
      = (match p.tickerCancel with
         | some old => cancelTask old p.liveTasks
         | none => p.liveTasks) := by
  cases hc : p.tickerCancel <;> simp [endTimer, hc]

theorem Tick_expired (now : Int) (p : Pomodoro) (h : p.deadline - now ≤ 0) :
    Tick now p = endTimer (blinkDelimiter p) := by
  unfold Tick
  simp only [blinkDelimiter_deadline]
  rw [if_pos h]

/-- A concrete running state: work phase, deadline 1000 ns, work interval
25 minutes, rest interval 5 minutes, one live one-second ticking task
with context id 0 referenced by the cancellation handle. -/
def runningState : Pomodoro :=
  { description := "FOCUS"
    minutesText := "25"
    secondsText := "00"
    delimiterY := 128
    deadline := 1000
    nextWorkInterval := 25 * timeMinute
    nextRestInterval := 5 * timeMinute
    isWork := true
    tickerCancel := some 0
    liveTasks := [{ id := 0, period := timeSecond }]
    nextTaskID := 1 }

/-!
Claim theorems.
-/

/-- C1 counterexample: at a tick observing now = 1000 with the deadline
already reached in the work phase, the phase-end transition fires (phase
flips to rest, the label becomes REST), but no new deadline is computed:
the deadline stays at its old value instead of now plus the rest
interval, refuting the deadline part of the claim. -/
theorem c1_no_new_deadline_counterexample :
    runningState.deadline ≤ 1000
    ∧ runningState.isWork = true
    ∧ (Tick 1000 runningState).isWork = false
    ∧ (Tick 1000 runningState).description = "REST"
    ∧ (Tick 1000 runningState).deadline = runningState.deadline
    ∧ ¬ (Tick 1000 runningState).deadline = 1000 + runningState.nextRestInterval := by
  decide

/-- C1 amended: a tick observing a non-positive remaining time fires the
phase-end transition exactly once per crossing (the ticking task is
cancelled and the handle cleared, so no further tick arrives from it),
the phase toggles, the display updates to the label of the other phase
and to that phase at its full configured interval (the expired remaining
value is never written to the display), the configured intervals are
unchanged, and the deadline is left unchanged: no new deadline is
computed at phase end (only an explicit Start computes one). -/
theorem c1_phase_end_amended (now : Int) (p : Pomodoro)
    (h : p.deadline - now ≤ 0) :
    (Tick now p).isWork = !p.isWork
    ∧ (Tick now p).description = (if p.isWork then "REST" else "FOCUS")
    ∧ (Tick now p).minutesText
        = displayMinutes (if p.isWork then p.nextRestInterval else p.nextWorkInterval)
    ∧ (Tick now p).secondsText
        = displaySeconds (if p.isWork then p.nextRestInterval else p.nextWorkInterval)
    ∧ (Tick now p).tickerCancel = none
    ∧ (Tick now p).liveTasks
        = (match p.tickerCancel with
           | some old => cancelTask old p.liveTasks
           | none => p.liveTasks)
    ∧ (Tick now p).deadline = p.deadline
    ∧ (Tick now p).nextWorkInterval = p.nextWorkInterval
    ∧ (Tick now p).nextRestInterval = p.nextRestInterval := by
  rw [Tick_expired now p h]
  refine ⟨?_, ?_, ?_, ?_, ?_, ?_, ?_, ?_, ?_⟩
  · rw [endTimer_isWork]; simp
  · rw [endTimer_description]; simp
  · rw [endTimer_minutesText]; simp
  · rw [endTimer_secondsText]; simp
  · exact endTimer_tickerCancel _
  · rw [endTimer_liveTasks]; simp
  · rw [endTimer_deadline]; simp
  · rw [endTimer_nextWorkInterval]; simp
  · rw [endTimer_nextRestInterval]; simp

/-- C1 witness: the amended phase-end theorem applied at the concrete
running state with now = 1000. -/
theorem c1_phase_end_witness :
    runningState.deadline - 1000 ≤ 0
    ∧ ((Tick 1000 runningState).isWork = !runningState.isWork
       ∧ (Tick 1000 runningState).description
           = (if runningState.isWork then "REST" else "FOCUS")
       ∧ (Tick 1000 runningState).minutesText
           = displayMinutes (if runningState.isWork then runningState.nextRestInterval
                             else runningState.nextWorkInterval)
       ∧ (Tick 1000 runningState).secondsText
           = displaySeconds (if runningState.isWork then runningState.nextRestInterval
                             else runningState.nextWorkInterval)
       ∧ (Tick 1000 runningState).tickerCancel = none
       ∧ (Tick 1000 runningState).liveTasks
           = (match runningState.tickerCancel with
              | some old => cancelTask old runningState.liveTasks
              | none => runningState.liveTasks)
       ∧ (Tick 1000 runningState).deadline = runningState.deadline
       ∧ (Tick 1000 runningState).nextWorkInterval = runningState.nextWorkInterval
       ∧ (Tick 1000 runningState).nextRestInterval = runningState.nextRestInterval) :=
  ⟨by decide, c1_phase_end_amended 1000 runningState (by decide)⟩

/-- C2: Start cancels any running ticker context, records the requested
phase in isWork, sets the deadline to now plus the configured interval of
that phase, immediately writes the FOCUS or REST label, immediately
displays that phase at its configured interval, and launches a fresh
ticking task with a one second period under the newly installed
cancellation handle. -/
theorem c2_start (now : Int) (w : Bool) (p : Pomodoro) :
    (Start now w p).isWork = w
    ∧ (Start now w p).description = (if w then "FOCUS" else "REST")
    ∧ (Start now w p).minutesText
        = displayMinutes (if w then p.nextWorkInterval else p.nextRestInterval)
    ∧ (Start now w p).secondsText
        = displaySeconds (if w then p.nextWorkInterval else p.nextRestInterval)
    ∧ (Start now w p).deadline
        = now + (if w then p.nextWorkInterval else p.nextRestInterval)
    ∧ (Start now w p).tickerCancel = some p.nextTaskID
    ∧ (Start now w p).liveTasks
        = { id := p.nextTaskID, period := timeSecond }
          :: (match p.tickerCancel with
              | some old => cancelTask old p.liveTasks
              | none => p.liveTasks) := by
  cases hc : p.tickerCancel <;> cases w <;> simp [Start, hc]

/-- C3: SetNextInterval updates exactly one configured interval, chosen
by the current value of isWork: the work interval becomes the selected
duration and the rest interval is untouched when isWork holds, and
symmetrically otherwise. -/
theorem c3_select_updates_one (now d : Int) (p : Pomodoro) :
    (SetNextInterval now d p).nextWorkInterval
      = (if p.isWork then d else p.nextWorkInterval)
    ∧ (SetNextInterval now d p).nextRestInterval
      = (if p.isWork then p.nextRestInterval else d)
    ∧ (SetNextInterval now d p).isWork = p.isWork := by
  cases hw : p.isWork <;> simp [SetNextInterval, hw]

/-- C4: the display formatting adds a fixed 200 millisecond bias before
splitting into whole minutes and whole seconds; a remaining duration of
59.9 seconds displays minutes " 1" and seconds "00", and a remaining
duration of exactly 0 displays minutes " 0" and seconds "00". -/
theorem c4_bias_format :
    (∀ (t : Int) (p : Pomodoro),
        (setTimeLeft t p).minutesText
          = sprintf2d (goUint64 ((t + 200 * timeMillisecond).tdiv timeMinute))
      ∧ (setTimeLeft t p).secondsText
          = sprintf02d (goUint64 (((t + 200 * timeMillisecond).tmod timeMinute).tdiv timeSecond)))
    ∧ (setTimeLeft (59900 * timeMillisecond) initialPomodoro).minutesText = " 1"
    ∧ (setTimeLeft (59900 * timeMillisecond) initialPomodoro).secondsText = "00"
    ∧ (setTimeLeft 0 initialPomodoro).minutesText = " 0"
    ∧ (setTimeLeft 0 initialPomodoro).secondsText = "00" := by
  refine ⟨fun t p => ⟨rfl, rfl⟩, ?_, ?_, ?_, ?_⟩ <;> decide

/-- C5 counterexample: after New the work interval is not unset at its
zero default: the default interval selection performed by New runs in the
work phase and stores 60 minutes into the work interval. -/
theorem c5_work_interval_counterexample :
    (New 0).nextWorkInterval = 60 * timeMinute
    ∧ ¬ (New 0).nextWorkInterval = 0 := by
  decide

/-- C5 amended: at startup the timer is idle (no cancellation handle, no
ticking task) with phase work and rest interval 15 minutes; the default
interval selection of 60 minutes performed by New runs in the work phase,
so the work interval becomes 60 minutes and the display shows 60 and 00.
Calling Start of the rest phase from that state sets the label to REST,
displays 15 and 00, and leaves exactly one one second ticking task
running under the new cancellation handle. -/
theorem c5_startup_amended (now now2 : Int) :
    (New now).tickerCancel = none
    ∧ (New now).liveTasks = []
    ∧ (New now).isWork = true
    ∧ (New now).nextRestInterval = 15 * timeMinute
    ∧ (New now).nextWorkInterval = 60 * timeMinute
    ∧ (New now).minutesText = "60"
    ∧ (New now).secondsText = "00"
    ∧ (Start now2 false (New now)).description = "REST"
    ∧ (Start now2 false (New now)).minutesText = "15"
    ∧ (Start now2 false (New now)).secondsText = "00"
    ∧ (Start now2 false (New now)).tickerCancel = some 0
    ∧ (Start now2 false (New now)).liveTasks = [{ id := 0, period := timeSecond }] := by
  refine ⟨rfl, rfl, rfl, rfl, rfl, rfl, rfl, ?_, ?_, ?_, ?_, ?_⟩
  · rw [Start_description]
    rfl
  · rw [Start_minutesText]
    show displayMinutes (15 * timeMinute) = "15"
    decide
  · rw [Start_secondsText]
    show displaySeconds (15 * timeMinute) = "00"
    decide
  · rw [Start_tickerCancel]
    rfl
  · rw [Start_liveTasks]
    show ({ id := 0, period := timeSecond } : TickTask)
        :: (match (New now).tickerCancel with
            | some old => cancelTask old (New now).liveTasks
            | none => (New now).liveTasks)
      = [{ id := 0, period := timeSecond }]
    have h1 : (New now).tickerCancel = none := rfl
    have h2 : (New now).liveTasks = [] := rfl
    rw [h1, h2]

/-- C6: StopTimer from any state satisfying the ticker invariant clears
the phase label, resets the delimiter to the idle gray level 128, cancels
the ticking task and clears the cancellation handle (so no live task
remains to update the display), and leaves both configured intervals
unchanged. -/
theorem c6_stop (p : Pomodoro) (h : TickerInv p) :
    (StopTimer p).description = ""
    ∧ (StopTimer p).delimiterY = 128
    ∧ (StopTimer p).tickerCancel = none
    ∧ (StopTimer p).liveTasks = []
    ∧ (StopTimer p).nextWorkInterval = p.nextWorkInterval
    ∧ (StopTimer p).nextRestInterval = p.nextRestInterval := by
  unfold TickerInv at h
  cases hc : p.tickerCancel <;> rw [hc] at h <;> simp [StopTimer, hc, h]

/-- C6 witness: StopTimer applied at the concrete running state. -/
theorem c6_stop_witness :
    TickerInv runningState
    ∧ ((StopTimer runningState).description = ""
       ∧ (StopTimer runningState).delimiterY = 128
       ∧ (StopTimer runningState).tickerCancel = none
       ∧ (StopTimer runningState).liveTasks = []
       ∧ (StopTimer runningState).nextWorkInterval = runningState.nextWorkInterval
       ∧ (StopTimer runningState).nextRestInterval = runningState.nextRestInterval) :=
  ⟨rfl, c6_stop runningState rfl⟩

/-- C10: the interval selection is unconditional in every state, idle
included: it always sets the deadline to now plus the selected duration
and immediately displays the selected duration, leaving the phase, the
handle and the ticking tasks untouched. -/
theorem c10_select_unconditional (now d : Int) (p : Pomodoro) :
    (SetNextInterval now d p).deadline = now + d
    ∧ (SetNextInterval now d p).minutesText = displayMinutes d
    ∧ (SetNextInterval now d p).secondsText = displaySeconds d
    ∧ (SetNextInterval now d p).tickerCancel = p.tickerCancel
    ∧ (SetNextInterval now d p).liveTasks = p.liveTasks
    ∧ (SetNextInterval now d p).isWork = p.isWork := by
  cases hw : p.isWork <;> simp [SetNextInterval, hw]

/-!
Width lemmas for the two formatted fields.
-/

theorem sprintf2d_length : ∀ n < 100, (sprintf2d n).length = 2 := by decide

theorem sprintf02d_length : ∀ n < 60, (sprintf02d n).length = 2 := by decide

theorem goUint64_lt_of_lt (x : Int) (b : Nat) (h0 : 0 ≤ x)
    (hlt : x < (b : Int)) (hb : (b : Int) ≤ 2 ^ 64) : goUint64 x < b := by
  unfold goUint64
  have h64 : (2 : Int) ^ 64 = 18446744073709551616 := by norm_num
  rw [h64] at hb ⊢
  omega

theorem biasedTimeLeft_nonneg (t : Int) (h : 0 ≤ t) : 0 ≤ biasedTimeLeft t := by
  unfold biasedTimeLeft timeMillisecond
  omega

theorem displaySeconds_length (t : Int) (h : 0 ≤ t) :
    (displaySeconds t).length = 2 := by
  have hb : 0 ≤ biasedTimeLeft t := biasedTimeLeft_nonneg t h
  have hm0 : 0 ≤ (biasedTimeLeft t).tmod timeMinute := Int.tmod_nonneg _ hb
  have hmlt : (biasedTimeLeft t).tmod timeMinute < timeMinute :=
    Int.tmod_lt_of_pos _ (by decide)
  have hd0 : 0 ≤ ((biasedTimeLeft t).tmod timeMinute).tdiv timeSecond :=
    Int.tdiv_nonneg hm0 (by decide)
  have hdlt : ((biasedTimeLeft t).tmod timeMinute).tdiv timeSecond < (60 : Int) := by
    rw [Int.tdiv_eq_ediv hm0 (by decide)]
    rw [Int.ediv_lt_iff_lt_mul (by decide : (0 : Int) < timeSecond)]
    exact hmlt.trans_le (by decide)
  unfold displaySeconds
  apply sprintf02d_length
  exact goUint64_lt_of_lt _ 60 hd0 (by exact_mod_cast hdlt) (by norm_num)

theorem displayMinutes_length (t : Int) (h0 : 0 ≤ t)
    (h1 : biasedTimeLeft t < 100 * timeMinute) :
    (displayMinutes t).length = 2 := by
  have hb : 0 ≤ biasedTimeLeft t := biasedTimeLeft_nonneg t h0
  have hd0 : 0 ≤ (biasedTimeLeft t).tdiv timeMinute := Int.tdiv_nonneg hb (by decide)
  have hdlt : (biasedTimeLeft t).tdiv timeMinute < (100 : Int) := by
    rw [Int.tdiv_eq_ediv hb (by decide)]
    rw [Int.ediv_lt_iff_lt_mul (by decide : (0 : Int) < timeMinute)]
    exact h1
  unfold displayMinutes
  apply sprintf2d_length
  exact goUint64_lt_of_lt _ 100 hd0 (by exact_mod_cast hdlt) (by norm_num)

/-- C7 counterexample: a countdown started from the selectable interval
of 105 minutes hands the display a three character minutes string, not a
two character one. -/
theorem c7_minutes_width_counterexample :
    (setTimeLeft (105 * timeMinute) initialPomodoro).minutesText = "105"
    ∧ ¬ ((setTimeLeft (105 * timeMinute) initialPomodoro).minutesText).length = 2 := by
  decide

/-- C7 amended: for every nonnegative remaining duration whose biased
value stays below 100 minutes (which covers countdowns started from the
selectable lengths 5, 15, 30, 45, 60, 75 and 90 minutes, but not 105
minutes, where the minutes string is three characters), the minutes
string handed to the display is exactly two characters and the seconds
string is exactly two zero padded characters. -/
theorem c7_two_char_amended (t : Int) (p : Pomodoro) (h0 : 0 ≤ t)
    (h1 : t + 200 * timeMillisecond < 100 * timeMinute) :
    ((setTimeLeft t p).minutesText).length = 2
    ∧ ((setTimeLeft t p).secondsText).length = 2 := by
  constructor
  · rw [setTimeLeft_minutesText]
    exact displayMinutes_length t h0 h1
  · rw [setTimeLeft_secondsText]
    exact displaySeconds_length t h0

/-- C7 witness: the amended width theorem applied at a 45 minute
remaining duration from the initial state. -/
theorem c7_two_char_witness :
    (0 : Int) ≤ 45 * timeMinute
    ∧ 45 * timeMinute + 200 * timeMillisecond < 100 * timeMinute
    ∧ (((setTimeLeft (45 * timeMinute) initialPomodoro).minutesText).length = 2
       ∧ ((setTimeLeft (45 * timeMinute) initialPomodoro).secondsText).length = 2) :=
  ⟨by decide, by decide,
    c7_two_char_amended (45 * timeMinute) initialPomodoro (by decide) (by decide)⟩

/-- C8: the alarm playback is the only fallible operation: it succeeds
exactly when none of decoder initialization, decoding (a clean end of
stream is not an error) and output device or playback close fails; every
error it returns is one of the step errors wrapped with its descriptive
context; and the phase-end state transition is the same for every alarm
environment and enablement flag, so an alarm failure never changes the
timer state and is at most logged. -/
theorem c8_alarm_errors (enabled : Bool) (env : AlarmEnv) (p : Pomodoro) :
    (endTimerLogWith enabled env p).1 = endTimer p
    ∧ (playAlarm env = Except.ok ()
        ↔ (env.decoderInitError = none ∧ env.decodeOutcome.isFail = false
           ∧ env.otoInitError = none ∧ env.closeError = none))
    ∧ alarmErrorsWrapped (playAlarm env) := by
  obtain ⟨d, r, o, c⟩ := env
  refine ⟨rfl, ?_, ?_⟩
  · cases d <;> cases r <;> cases o <;> cases c <;>
      simp [playAlarm, ReadOutcome.isFail]
  · cases d with
    | some e => exact ⟨e, Or.inl rfl⟩
    | none =>
      cases r with
      | fail m => exact ⟨m, Or.inr (Or.inl rfl)⟩
      | ok n =>
        cases o with
        | some e => exact ⟨e, Or.inr (Or.inr (Or.inl rfl))⟩
        | none =>
          cases c with
          | some e => exact ⟨e, Or.inr (Or.inr (Or.inr rfl))⟩
          | none => exact trivial
      | eof n =>
        cases o with
        | some e => exact ⟨e, Or.inr (Or.inr (Or.inl rfl))⟩
        | none =>
          cases c with
          | some e => exact ⟨e, Or.inr (Or.inr (Or.inr rfl))⟩
          | none => exact trivial

/-- C9: along every event sequence from the startup state, the ticker
invariant holds: the cancellation handle is present with a given context
id iff exactly the one ticking task with that id is alive, so at most one
ticking task is alive at any time; and two Start calls in rapid
succession (no other event in between) leave exactly one live ticking
task, the one installed by the second Start, referenced by the new
cancellation handle. -/
theorem c9_single_ticker (evs : List Event) (t0 n1 n2 : Int) (w1 w2 : Bool) :
    TickerInv (run evs (New t0))
    ∧ (run evs (New t0)).liveTasks.length ≤ 1
    ∧ (Start n2 w2 (Start n1 w1 (run evs (New t0)))).liveTasks
        = [{ id := (Start n1 w1 (run evs (New t0))).nextTaskID, period := timeSecond }]
    ∧ (Start n2 w2 (Start n1 w1 (run evs (New t0)))).tickerCancel
        = some ((Start n1 w1 (run evs (New t0))).nextTaskID) := by
  have h0 : TickerInv (run evs (New t0)) := tickerInv_run evs (New t0) (tickerInv_New t0)
  have h1 : TickerInv (Start n1 w1 (run evs (New t0))) := tickerInv_start n1 w1 _ h0
  have h2 : TickerInv (Start n2 w2 (Start n1 w1 (run evs (New t0)))) :=
    tickerInv_start n2 w2 _ h1
  refine ⟨h0, tickerInv_length _ h0, ?_, Start_tickerCancel n2 w2 _⟩
  have hc := Start_tickerCancel n2 w2 (Start n1 w1 (run evs (New t0)))
  unfold TickerInv at h2
  rw [hc] at h2
  exact h2
